import Mathlib

/-!
Verification of the social-media ingestion pipeline (TikTok / Instagram
scraping services): a shallow embedding of the record-normalization,
deduplicating persistence and orchestration code, with theorems checking
the natural-language specification against it.

Python values are modelled by the `PyVal` type below; Python exceptions by
`Except String`; the relational store by in-memory lists of rows; the
external scraping provider (Apify) by environment records supplying the
outcome of each collaborator call.
-/

namespace CreatorCompass

mutual

/-- A loosely-typed Python value as it appears in raw Apify records:
`None`, booleans, integers, strings, lists and string-keyed dicts.
(Floats and other types do not occur in the code paths under study.)
`PyList`/`PyDict` are mutually inductive with `PyVal` so that structural
recursion over nested values is available. -/
inductive PyVal where
  | none
  | bool (b : Bool)
  | int (n : Int)
  | str (s : String)
  | list (xs : PyList)
  | dict (kvs : PyDict)

/-- A Python list of `PyVal`s (isomorphic to `List PyVal`). -/
inductive PyList where
  | nil
  | cons (head : PyVal) (tail : PyList)

/-- A Python dict with string keys (isomorphic to `List (String × PyVal)`,
first binding wins on lookup, as Python dicts have unique keys). -/
inductive PyDict where
  | nil
  | cons (key : String) (val : PyVal) (tail : PyDict)

end

end CreatorCompass

mutual

/-- Decidable equality on `PyVal`, modelling Python `==` on the value types
that occur in scraped records (where `==` coincides with structural
equality). Written by hand (structural mutual recursion) so that it
evaluates inside the kernel. -/
def CreatorCompass.PyVal.decEq : (a b : CreatorCompass.PyVal) → Decidable (a = b)
  | .none, .none => isTrue rfl
  | .none, .bool _ => isFalse (fun h => CreatorCompass.PyVal.noConfusion h)
  | .none, .int _ => isFalse (fun h => CreatorCompass.PyVal.noConfusion h)
  | .none, .str _ => isFalse (fun h => CreatorCompass.PyVal.noConfusion h)
  | .none, .list _ => isFalse (fun h => CreatorCompass.PyVal.noConfusion h)
  | .none, .dict _ => isFalse (fun h => CreatorCompass.PyVal.noConfusion h)
  | .bool _, .none => isFalse (fun h => CreatorCompass.PyVal.noConfusion h)
  | .bool a, .bool b =>
    match Bool.decEq a b with
    | isTrue h => isTrue (h ▸ rfl)
    | isFalse h => isFalse (fun e => h (CreatorCompass.PyVal.bool.inj e))
  | .bool _, .int _ => isFalse (fun h => CreatorCompass.PyVal.noConfusion h)
  | .bool _, .str _ => isFalse (fun h => CreatorCompass.PyVal.noConfusion h)
  | .bool _, .list _ => isFalse (fun h => CreatorCompass.PyVal.noConfusion h)
  | .bool _, .dict _ => isFalse (fun h => CreatorCompass.PyVal.noConfusion h)
  | .int _, .none => isFalse (fun h => CreatorCompass.PyVal.noConfusion h)
  | .int _, .bool _ => isFalse (fun h => CreatorCompass.PyVal.noConfusion h)
  | .int a, .int b =>
    match Int.decEq a b with
    | isTrue h => isTrue (h ▸ rfl)
    | isFalse h => isFalse (fun e => h (CreatorCompass.PyVal.int.inj e))
  | .int _, .str _ => isFalse (fun h => CreatorCompass.PyVal.noConfusion h)
  | .int _, .list _ => isFalse (fun h => CreatorCompass.PyVal.noConfusion h)
  | .int _, .dict _ => isFalse (fun h => CreatorCompass.PyVal.noConfusion h)
  | .str _, .none => isFalse (fun h => CreatorCompass.PyVal.noConfusion h)
  | .str _, .bool _ => isFalse (fun h => CreatorCompass.PyVal.noConfusion h)
  | .str _, .int _ => isFalse (fun h => CreatorCompass.PyVal.noConfusion h)
  | .str a, .str b =>
    match String.decEq a b with
    | isTrue h => isTrue (h ▸ rfl)
    | isFalse h => isFalse (fun e => h (CreatorCompass.PyVal.str.inj e))
  | .str _, .list _ => isFalse (fun h => CreatorCompass.PyVal.noConfusion h)
  | .str _, .dict _ => isFalse (fun h => CreatorCompass.PyVal.noConfusion h)
  | .list _, .none => isFalse (fun h => CreatorCompass.PyVal.noConfusion h)
  | .list _, .bool _ => isFalse (fun h => CreatorCompass.PyVal.noConfusion h)
  | .list _, .int _ => isFalse (fun h => CreatorCompass.PyVal.noConfusion h)
  | .list _, .str _ => isFalse (fun h => CreatorCompass.PyVal.noConfusion h)
  | .list xs, .list ys =>
    match CreatorCompass.PyList.decEq xs ys with
    | isTrue h => isTrue (h ▸ rfl)
    | isFalse h => isFalse (fun e => h (CreatorCompass.PyVal.list.inj e))
  | .list _, .dict _ => isFalse (fun h => CreatorCompass.PyVal.noConfusion h)
  | .dict _, .none => isFalse (fun h => CreatorCompass.PyVal.noConfusion h)
  | .dict _, .bool _ => isFalse (fun h => CreatorCompass.PyVal.noConfusion h)
  | .dict _, .int _ => isFalse (fun h => CreatorCompass.PyVal.noConfusion h)
  | .dict _, .str _ => isFalse (fun h => CreatorCompass.PyVal.noConfusion h)
  | .dict _, .list _ => isFalse (fun h => CreatorCompass.PyVal.noConfusion h)
  | .dict xs, .dict ys =>
    match CreatorCompass.PyDict.decEq xs ys with
    | isTrue h => isTrue (h ▸ rfl)
    | isFalse h => isFalse (fun e => h (CreatorCompass.PyVal.dict.inj e))

/-- Decidable equality on `PyList`. -/
def CreatorCompass.PyList.decEq : (xs ys : CreatorCompass.PyList) → Decidable (xs = ys)
  | .nil, .nil => isTrue rfl
  | .nil, .cons _ _ => isFalse (fun h => CreatorCompass.PyList.noConfusion h)
  | .cons _ _, .nil => isFalse (fun h => CreatorCompass.PyList.noConfusion h)
  | .cons x xs, .cons y ys =>
    match CreatorCompass.PyVal.decEq x y with
    | isFalse h => isFalse (fun e => h (CreatorCompass.PyList.cons.inj e).1)
    | isTrue h1 =>
      match CreatorCompass.PyList.decEq xs ys with
      | isTrue h2 => isTrue (h1 ▸ h2 ▸ rfl)
      | isFalse h2 => isFalse (fun e => h2 (CreatorCompass.PyList.cons.inj e).2)

/-- Decidable equality on `PyDict`. -/
def CreatorCompass.PyDict.decEq : (xs ys : CreatorCompass.PyDict) → Decidable (xs = ys)
  | .nil, .nil => isTrue rfl
  | .nil, .cons _ _ _ => isFalse (fun h => CreatorCompass.PyDict.noConfusion h)
  | .cons _ _ _, .nil => isFalse (fun h => CreatorCompass.PyDict.noConfusion h)
  | .cons k1 v1 xs, .cons k2 v2 ys =>
    match String.decEq k1 k2 with
    | isFalse h => isFalse (fun e => h (CreatorCompass.PyDict.cons.inj e).1)
    | isTrue hk =>
      match CreatorCompass.PyVal.decEq v1 v2 with
      | isFalse h => isFalse (fun e => h (CreatorCompass.PyDict.cons.inj e).2.1)
      | isTrue hv =>
        match CreatorCompass.PyDict.decEq xs ys with
        | isTrue h2 => isTrue (hk ▸ hv ▸ h2 ▸ rfl)
        | isFalse h2 => isFalse (fun e => h2 (CreatorCompass.PyDict.cons.inj e).2.2)

end

deriving instance DecidableEq for Except

namespace CreatorCompass

instance : DecidableEq PyVal := PyVal.decEq

instance : DecidableEq PyList := PyList.decEq

instance : DecidableEq PyDict := PyDict.decEq

/-- Build a `PyList` from a Lean list (for writing record literals). -/
def PyList.ofList : List PyVal → PyList
  | [] => .nil
  | x :: xs => .cons x (PyList.ofList xs)

/-- View a `PyList` as a Lean list. -/
def PyList.toList : PyList → List PyVal
  | .nil => []
  | .cons x xs => x :: xs.toList

/-- Build a `PyDict` from a Lean association list. -/
def PyDict.ofList : List (String × PyVal) → PyDict
  | [] => .nil
  | (k, v) :: xs => .cons k v (PyDict.ofList xs)

/-- View a `PyDict` as a Lean association list. -/
def PyDict.toList : PyDict → List (String × PyVal)
  | .nil => []
  | .cons k v xs => (k, v) :: xs.toList

/-- Python list literal. -/
def PyVal.mkList (xs : List PyVal) : PyVal := .list (PyList.ofList xs)

/-- Python dict literal. -/
def PyVal.mkDict (kvs : List (String × PyVal)) : PyVal := .dict (PyDict.ofList kvs)

/-- Python truthiness (`bool(x)`): `None`, `False`, `0`, `""`, `[]` and
`{}` are falsy, everything else truthy. -/
def truthy : PyVal → Bool
  | .none => false
  | .bool b => b
  | .int n => n != 0
  | .str s => s != ""
  | .list .nil => false
  | .list (.cons _ _) => true
  | .dict .nil => false
  | .dict (.cons _ _ _) => true

/-- Python `x.get(k, d)` on a dict: the value bound to `k`, else the
default `d`; calling `.get` on a non-dict raises `AttributeError`. -/
def pyGetD (v : PyVal) (k : String) (d : PyVal) : Except String PyVal :=
  match v with
  | .dict kvs => .ok ((kvs.toList.lookup k).getD d)
  | _ => .error "AttributeError"

/-- Python `x.get(k)` on a dict (default `None`). -/
def pyGet (v : PyVal) (k : String) : Except String PyVal := pyGetD v k .none

/-- Python subscript `x[k]` on a dict: raises `KeyError` when the key is
absent, `TypeError` when `x` is not a dict. -/
def pyIndex (v : PyVal) (k : String) : Except String PyVal :=
  match v with
  | .dict kvs =>
    match kvs.toList.lookup k with
    | some x => .ok x
    | Option.none => .error "KeyError"
  | _ => .error "TypeError"

/-- Use a value as a string (a string method such as `.replace` on a
non-string raises `AttributeError`). -/
def asStr : PyVal → Except String String
  | .str s => .ok s
  | _ => .error "AttributeError"

/-- Numeric value of a decimal digit character. -/
def digitVal (c : Char) : Option Nat :=
  if c.isDigit then some (c.toNat - 48) else Option.none

/-- Read a run of decimal digits, accumulating left to right. -/
def readDigits : Nat → List Char → Option Nat
  | acc, [] => some acc
  | acc, c :: cs =>
    match digitVal c with
    | some d => readDigits (10 * acc + d) cs
    | Option.none => Option.none

/-- Python `int(s)` on a string: an optional sign followed by at least one
digit (surrounding whitespace, underscores and other bases are not
exercised by the code under study and are rejected here). -/
def parseIntChars : List Char → Option Int
  | [] => Option.none
  | '-' :: ds => if ds.isEmpty then Option.none else (readDigits 0 ds).map (fun n => -(n : Int))
  | '+' :: ds => if ds.isEmpty then Option.none else (readDigits 0 ds).map (fun n => (n : Int))
  | ds => (readDigits 0 ds).map (fun n => (n : Int))

/-- Python `int(x)` coercion as used on engagement counters: ints pass
through, bools map to 0/1, strings are parsed (`ValueError` on failure),
anything else raises `TypeError`. -/
def pyInt : PyVal → Except String Int
  | .int n => .ok n
  | .bool b => .ok (if b then 1 else 0)
  | .str s =>
    match parseIntChars s.data with
    | some n => .ok n
    | Option.none => .error "ValueError"
  | _ => .error "TypeError"

/-- Replace every occurrence of the character `c` by `rep` (Python
`str.replace` with a one-character pattern, the only shape used: the
`"Z"` to `"+00:00"` rewrite). -/
def charReplace (c : Char) (rep : List Char) : List Char → List Char
  | [] => []
  | x :: xs => if x = c then rep ++ charReplace c rep xs else x :: charReplace c rep xs

/-- Python `s.replace(c, rep)` for a one-character pattern. -/
def pyReplace (s : String) (c : Char) (rep : String) : String :=
  ⟨charReplace c rep.data s.data⟩

/-- Python `s.strip(c)` for a one-character set: removes every leading and
every trailing occurrence of `c` (both ends, maximal runs — not just one
leading character). -/
def pyStrip (s : String) (c : Char) : String :=
  ⟨((s.data.dropWhile (· = c)).reverse.dropWhile (· = c)).reverse⟩

/-- The username normalization both orchestrators apply before building the
provider job input: `username.strip('@')` (tiktok.py line 39 and 452,
instagram.py line 30). -/
def formatUsername (u : String) : String := pyStrip u '@'

/-- Gregorian leap year. -/
def isLeapYear (y : Nat) : Bool :=
  (y % 4 == 0 && y % 100 != 0) || y % 400 == 0

/-- Days in a month of the proleptic Gregorian calendar. -/
def daysInMonth (y m : Nat) : Nat :=
  if m == 2 then (if isLeapYear y then 29 else 28)
  else if m == 4 || m == 6 || m == 9 || m == 11 then 30
  else 31

/-- Days from 1970-01-01 to year `y`, month `m`, day `d` of the proleptic
Gregorian calendar (the civil-from-days algorithm; valid for the year
range 1–9999 accepted by Python `datetime`). -/
def daysFromCivil (y m d : Nat) : Int :=
  let y' := if m ≤ 2 then y - 1 else y
  let era := y' / 400
  let yoe := y' - era * 400
  let mp := (m + 9) % 12
  let doy := (153 * mp + 2) / 5 + d - 1
  let doe := yoe * 365 + yoe / 4 - yoe / 100 + doy
  (era * 146097 + doe : Nat) - (719468 : Int)

/-- Seconds since the epoch of a wall-clock reading (no timezone applied). -/
def mkWallSeconds (y mo d h mi s : Nat) : Int :=
  daysFromCivil y mo d * 86400 + (h * 3600 + mi * 60 + s : Nat)

/-- A Python `datetime`: a wall-clock reading (as seconds since the epoch
of that reading, timezone not applied) plus the optional `tzinfo` UTC
offset in seconds. `off = Option.none` is a naive datetime. The instant a
timezone-aware datetime denotes is `wall - off` in UTC. -/
structure PyDateTime where
  wall : Int
  off : Option Int
deriving DecidableEq

/-- Two decimal digits. -/
def num2 (a b : Char) : Option Nat := do
  let x ← digitVal a
  let y ← digitVal b
  pure (10 * x + y)

/-- Four decimal digits. -/
def num4 (a b c d : Char) : Option Nat := do
  let x ← num2 a b
  let y ← num2 c d
  pure (100 * x + y)

/-- Read the mandatory `YYYY-MM-DD{T| }HH:MM:SS` prefix of an ISO-8601
datetime string, with calendar range validation as CPython performs it. -/
def readYmdHms : List Char → Option (Nat × Nat × Nat × Nat × Nat × Nat)
  | [y1, y2, y3, y4, '-', b1, b2, '-', d1, d2, t, h1, h2, ':', m1, m2, ':', s1, s2] =>
    if t = 'T' || t = ' ' then do
      let y ← num4 y1 y2 y3 y4
      let mo ← num2 b1 b2
      let d ← num2 d1 d2
      let h ← num2 h1 h2
      let mi ← num2 m1 m2
      let s ← num2 s1 s2
      if 1 ≤ y && y ≤ 9999 && 1 ≤ mo && mo ≤ 12 && 1 ≤ d && d ≤ daysInMonth y mo
          && h ≤ 23 && mi ≤ 59 && s ≤ 59 then
        pure (y, mo, d, h, mi, s)
      else Option.none
    else Option.none
  | _ => Option.none

/-- Read a `±HH:MM` UTC-offset suffix, in seconds. -/
def readOffset : List Char → Option Int
  | [sgn, o1, o2, ':', o3, o4] => do
    let oh ← num2 o1 o2
    let om ← num2 o3 o4
    if oh ≤ 23 && om ≤ 59 then
      if sgn = '+' then pure ((oh * 3600 + om * 60 : Nat) : Int)
      else if sgn = '-' then pure (-((oh * 3600 + om * 60 : Nat) : Int))
      else Option.none
    else Option.none
  | _ => Option.none

/-- Python `datetime.fromisoformat`, restricted to the shapes the
ingestion code feeds it: `YYYY-MM-DD{T| }HH:MM:SS` optionally followed by
a `±HH:MM` offset (the literal `"Z"` suffix has already been rewritten to
`"+00:00"` by the caller). Any other shape raises `ValueError`.
(CPython also accepts fractional seconds and date-only forms; those are
not exercised by the claims and are rejected here.) -/
def fromisoformat (s : String) : Except String PyDateTime :=
  let cs := s.data
  match readYmdHms (cs.take 19) with
  | Option.none => .error "ValueError"
  | some (y, mo, d, h, mi, sec) =>
    let wall := mkWallSeconds y mo d h mi sec
    match cs.drop 19 with
    | [] => .ok ⟨wall, Option.none⟩
    | rest =>
      match readOffset rest with
      | some o => .ok ⟨wall, some o⟩
      | Option.none => .error "ValueError"

/-- The TikTok publish-date normalization (tiktok.py line 172):
`datetime.fromisoformat(create_time.replace("Z", "+00:00")).replace(tzinfo=None)`.
`.replace(tzinfo=None)` drops the offset and keeps the wall-clock reading
unchanged — no conversion of the instant to UTC takes place. -/
def tiktokPublishDate (s : String) : Except String Int :=
  (fromisoformat (pyReplace s 'Z' "+00:00")).map (·.wall)

/-- Python `dt.astimezone(timezone.utc).replace(tzinfo=None)`: for an
aware datetime the instant is converted to its UTC wall-clock reading
(`wall - off`); for a naive datetime CPython interprets the reading in the
system-local timezone, whose offset `localOff` is an environment input. -/
def astimezoneUtcNaive (localOff : Int) (dt : PyDateTime) : Int :=
  match dt.off with
  | some o => dt.wall - o
  | Option.none => dt.wall - localOff

/-- The Instagram post-timestamp normalization (instagram.py lines
133–140): `fromisoformat` after the `"Z"` rewrite, then
`astimezone(timezone.utc).replace(tzinfo=None)`. -/
def igPostTimestamp (localOff : Int) (s : String) : Except String Int :=
  (fromisoformat (pyReplace s 'Z' "+00:00")).map (astimezoneUtcNaive localOff)

end CreatorCompass

namespace CreatorCompass

/-- Monadic map over `Except`, failing at the first failing element (the
order in which a Python `for` loop raises). Structural so that it
evaluates in the kernel. -/
def mapMExcept (f : α → Except String β) : List α → Except String (List β)
  | [] => .ok []
  | x :: xs => (f x).bind fun y => (mapMExcept f xs).map (fun ys => y :: ys)

/-! ## TikTok service (src/services/tiktok.py) -/

namespace TikTok

/-- A parsed TikTok video, the shape `TikTokService.parse_video_data`
produces and the `tiktok_videos` row it becomes (the system-managed
surrogate id and created/updated timestamps are not modelled; note that
database.py puts no uniqueness constraint on `video_url`). Fields that
Python never coerces stay `PyVal`. -/
structure VideoData where
  username : PyVal
  caption : PyVal
  hashtags : List PyVal
  likes : Int
  comments : Int
  shares : Int
  views : Int
  publish_date : Int
  music : PyVal
  thumbnail_url : PyVal
  video_url : PyVal
deriving DecidableEq

/-- The hashtag extraction of tiktok.py line 147:
`[tag.get("name") for tag in video_data.get("hashtags", []) if tag.get("name")]` —
keeps the truthy names, preserving order; iterating a non-list or calling
`.get` on a non-dict element raises, failing the whole record. -/
def extractHashtags : PyVal → Except String (List PyVal)
  | .list tags => (mapMExcept (fun tag => pyGet tag "name") tags.toList).map (List.filter truthy)
  | _ => .error "TypeError"

/-- Field extraction and coercion of `parse_video_data` (tiktok.py lines
136–176), in source order: raw gets, hashtag extraction, required-field
checks (username, createTimeISO, webVideoUrl; missing text falls back to
`""`), integer coercion of the four counters, publish-date normalization,
music/thumbnail defaults. -/
def buildVideoData (v : PyVal) : Except String VideoData := do
  let authorMeta ← pyGetD v "authorMeta" (.mkDict [])
  let username ← pyGet authorMeta "name"
  let text ← pyGet v "text"
  let create_time ← pyGet v "createTimeISO"
  let video_url ← pyGet v "webVideoUrl"
  let hashtagsVal ← pyGetD v "hashtags" (.mkList [])
  let hashtags ← extractHashtags hashtagsVal
  if truthy username = false then
    throw "Missing required field: username"
  let caption := if truthy text then text else .str ""
  if truthy create_time = false then
    throw "Missing required field: createTimeISO"
  if truthy video_url = false then
    throw "Missing required field: webVideoUrl"
  let likesRaw ← pyGetD v "diggCount" (.int 0)
  let likes ← pyInt likesRaw
  let commentsRaw ← pyGetD v "commentCount" (.int 0)
  let comments ← pyInt commentsRaw
  let sharesRaw ← pyGetD v "shareCount" (.int 0)
  let shares ← pyInt sharesRaw
  let viewsRaw ← pyGetD v "playCount" (.int 0)
  let views ← pyInt viewsRaw
  let ctStr ← asStr create_time
  let publish_date ← tiktokPublishDate ctStr
  let musicMeta ← pyGetD v "musicMeta" (.mkDict [])
  let music ← pyGetD musicMeta "musicAuthor" (.str "")
  let videoMeta ← pyGetD v "videoMeta" (.mkDict [])
  let thumbnail_url ← pyGetD videoMeta "coverUrl" (.str "")
  pure ⟨username, caption, hashtags, likes, comments, shares, views, publish_date,
    music, thumbnail_url, video_url⟩

/-- The validation of tiktok.py lines 178–180: reject a negative value
for likes, comments or shares (`views` is not checked by the source). -/
def validateCounters (d : VideoData) : Except String VideoData :=
  if d.likes < 0 || d.comments < 0 || d.shares < 0 then
    .error "Invalid negative value for likes, comments, or shares"
  else .ok d

/-- `TikTokService.parse_video_data` (tiktok.py lines 126–186): build the
parsed record, then validate the counters; any exception raised on the
way is re-raised to the caller. -/
def parse_video_data (v : PyVal) : Except String VideoData :=
  (buildVideoData v).bind validateCounters

/-- The per-record parse loop of `save_videos` (tiktok.py lines 200–212):
each record is parsed independently and parse failures are logged and
skipped. -/
def parseOks (videos_data : List PyVal) : List VideoData :=
  videos_data.filterMap (fun v => (parse_video_data v).toOption)

/-- `TikTokService.save_videos` (tiktok.py lines 188–241) with the commit
assumed to succeed (no store-level constraint exists on `tiktok_videos`):
parse every record, skipping failures; if nothing parsed, return 0;
otherwise batch-query the stored urls appearing in the batch, drop the
videos whose url is already stored, and append the remainder. Returns the
inserted count and the new store. -/
def save_videos (videos_data : List PyVal) (store : List VideoData) :
    Nat × List VideoData :=
  let videos := parseOks videos_data
  if videos.isEmpty then (0, store)
  else
    let video_urls := videos.map (·.video_url)
    let existing_urls := (store.map (·.video_url)).filter (fun u => u ∈ video_urls)
    let new_videos := videos.filter (fun v => ¬ v.video_url ∈ existing_urls)
    if new_videos.isEmpty then (0, store)
    else (new_videos.length, store ++ new_videos)

/-- `TikTokService.get_latest_video_date` (tiktok.py lines 243–261): the
newest `publish_date` among the stored videos of `username`, if any. -/
def get_latest_video_date (store : List VideoData) (username : String) : Option Int :=
  ((store.filter (fun r => r.username = .str username)).map (·.publish_date)).max?

/-- A parsed TikTok profile, the shape `TikTokService.parse_profile_data`
produces (tiktok.py lines 283–295). -/
structure ProfileData where
  username : PyVal
  verified : Int
  private_account : Int
  region : PyVal
  following : Int
  friends : Int
  fans : Int
  heart : Int
  video : Int
  avatar_url : PyVal
  signature : PyVal
deriving DecidableEq

/-- The field extraction of `parse_profile_data` (tiktok.py lines
283–295): every numeric field is `int(...)`-coerced with default 0,
string-ish fields default to `""`. -/
def extractProfileFields (author_meta : PyVal) : Except String ProfileData := do
  let username ← pyGet author_meta "name"
  let verified ← pyInt (← pyGetD author_meta "verified" (.int 0))
  let private_account ← pyInt (← pyGetD author_meta "privateAccount" (.int 0))
  let region ← pyGetD author_meta "region" (.str "")
  let following ← pyInt (← pyGetD author_meta "following" (.int 0))
  let friends ← pyInt (← pyGetD author_meta "friends" (.int 0))
  let fans ← pyInt (← pyGetD author_meta "fans" (.int 0))
  let heart ← pyInt (← pyGetD author_meta "heart" (.int 0))
  let video ← pyInt (← pyGetD author_meta "video" (.int 0))
  let avatar_url ← pyGetD author_meta "avatar" (.str "")
  let signature ← pyGetD author_meta "signature" (.str "")
  pure ⟨username, verified, private_account, region, following, friends, fans,
    heart, video, avatar_url, signature⟩

/-- The body of `parse_profile_data` before its `except` clause (tiktok.py
lines 273–303): `None` when `authorMeta` is falsy or the extracted
username is falsy, the profile otherwise; extraction steps may raise. -/
def parseProfileBody (v : PyVal) : Except String (Option ProfileData) :=
  (pyGet v "authorMeta").bind fun author_meta =>
    if truthy author_meta = false then .ok Option.none
    else
      (extractProfileFields author_meta).bind fun p =>
        if truthy p.username = false then .ok Option.none
        else .ok (some p)

/-- `TikTokService.parse_profile_data` (tiktok.py lines 263–306): the
body with every exception caught and turned into `None` (lines 304–306),
so the function is total with an `Option` result. -/
def parse_profile_data (v : PyVal) : Option ProfileData :=
  match parseProfileBody v with
  | .ok r => r
  | .error _ => Option.none

/-- A `tiktok_profile` row: primary key `username` plus the scalar fields
`save_profile` writes, and the system-managed creation timestamp (set
once on insert, not among the keys `save_profile` overwrites; its actual
clock value is irrelevant here and a new row records 0). -/
structure ProfileRow where
  username : PyVal
  verified : Int
  private_account : Int
  region : PyVal
  following : Int
  friends : Int
  fans : Int
  heart : Int
  video : Int
  avatar_url : PyVal
  signature : PyVal
  created_at : Int
deriving DecidableEq

/-- The row a fresh `TikTokProfile(**profile_data)` insert creates
(tiktok.py lines 334–337). -/
def newProfileRow (pd : ProfileData) : ProfileRow :=
  ⟨pd.username, pd.verified, pd.private_account, pd.region, pd.following,
    pd.friends, pd.fans, pd.heart, pd.video, pd.avatar_url, pd.signature, 0⟩

/-- The update loop of tiktok.py lines 329–331: `setattr` of every key of
the parsed profile onto the existing row (every key of `profile_data` is
an attribute of the model, so every scalar field is overwritten); the
row's `created_at` is not among the written keys and is preserved. -/
def overwriteProfile (pd : ProfileData) (r : ProfileRow) : ProfileRow :=
  ⟨pd.username, pd.verified, pd.private_account, pd.region, pd.following,
    pd.friends, pd.fans, pd.heart, pd.video, pd.avatar_url, pd.signature,
    r.created_at⟩

/-- The effect of `save_profile`'s query-then-write on the profile table:
the first row whose `username` equals the parsed username is overwritten
in place; if none matches, a new row is appended. -/
def upsertProfile (pd : ProfileData) : List ProfileRow → List ProfileRow
  | [] => [newProfileRow pd]
  | r :: rs =>
    if r.username = pd.username then overwriteProfile pd r :: rs
    else r :: upsertProfile pd rs

end TikTok

end CreatorCompass

namespace CreatorCompass

namespace TikTok

/-- The TikTok persistence state: the `tiktok_videos` and `tiktok_profile`
tables. -/
structure DB where
  videos : List VideoData
  profiles : List ProfileRow
deriving DecidableEq

/-- Outcomes of the external collaborators of `TikTokService` for one
scrape call: the Apify job submissions (given the formatted username in
their payload), the polling wait, the dataset fetch, and the database
commits. An `.error` makes the corresponding Python call raise. The
unbounded 2-second polling loop of `wait_for_run_to_finish` is abstracted
to its outcome: normal return on `SUCCEEDED` or a raised exception on
`FAILED`/`ABORTED`. -/
structure Env where
  submitVideoJob : String → Except String PyVal
  submitProfileJob : String → Except String PyVal
  waitRun : PyVal → Except String Unit
  fetchItems : PyVal → Except String (List PyVal)
  commitVideos : Except String Unit
  commitProfile : Except String Unit

/-- `TikTokService.run_scraper` (tiktok.py lines 26–61): normalize the
username with `strip('@')`, submit the scraping job with it; a provider
failure is re-raised as `Apify API error: ...`. (The rest of the run
input payload is opaque to the claims.) -/
def run_scraper (env : Env) (username : String) : Except String PyVal :=
  match env.submitVideoJob (formatUsername username) with
  | .ok run => .ok run
  | .error e => .error ("Apify API error: " ++ e)

/-- `TikTokService.save_profile` (tiktok.py lines 308–345): query by
username, overwrite the existing row in place or add a new one, then
commit; a raised commit failure is rolled back and reported as `False`,
success as `True`. -/
def save_profile (env : Env) (pd : ProfileData) (profiles : List ProfileRow) :
    Bool × List ProfileRow :=
  match env.commitProfile with
  | .ok _ => (true, upsertProfile pd profiles)
  | .error _ => (false, profiles)

/-- `TikTokService.extract_and_save_profile` (tiktok.py lines 347–368):
profile data is taken from the first raw video only; an empty batch or an
unparseable profile yields `False` without touching the store. -/
def extract_and_save_profile (env : Env) (videos : List PyVal)
    (profiles : List ProfileRow) : Bool × List ProfileRow :=
  match videos with
  | [] => (false, profiles)
  | v :: _ =>
    match parse_profile_data v with
    | Option.none => (false, profiles)
    | some pd => save_profile env pd profiles

/-- `save_videos` together with its commit effect: the two early returns
(nothing parsed / nothing new) happen before `db.commit()`; when new
videos exist the commit may raise (tiktok.py lines 234–241), in which
case the transaction is rolled back and the exception re-raised. -/
def save_videosE (env : Env) (videos_data : List PyVal) (store : List VideoData) :
    Except String (Nat × List VideoData) :=
  match save_videos videos_data store with
  | (0, s) => .ok (0, s)
  | (n, s) =>
    match env.commitVideos with
    | .ok _ => .ok (n, s)
    | .error e => .error e

/-- The result dict of `scrape_user_videos`. The empty-dataset return
(tiktok.py lines 399–405) carries no `success` key, hence
`success : Option Bool`; every other return sets it. -/
structure ScrapeVideosResult where
  username : String
  videos_saved : Nat
  latest_video_date : Option Int
  profile_saved : Bool
  error : Option String
  success : Option Bool
deriving DecidableEq

/-- The `try` body of `scrape_user_videos` (tiktok.py lines 381–424). An
`.error` carries the exception message together with the database state
at the point of raising (a profile commit that already happened is not
undone by a later video-save failure). -/
def scrape_user_videos_body (env : Env) (db : DB) (username : String) :
    Except (String × DB) (ScrapeVideosResult × DB) :=
  match run_scraper env username with
  | .error e => .error (e, db)
  | .ok run =>
    match pyIndex run "id" with
    | .error e => .error (e, db)
    | .ok run_id =>
      match env.waitRun run_id with
      | .error e => .error (e, db)
      | .ok _ =>
        match pyIndex run "defaultDatasetId" with
        | .error e => .error (e, db)
        | .ok dataset_id =>
          match env.fetchItems dataset_id with
          | .error e => .error (e, db)
          | .ok videos =>
            if videos.isEmpty then
              .ok (⟨username, 0, Option.none, false,
                some "No videos found for this user", Option.none⟩, db)
            else
              let pr := extract_and_save_profile env videos db.profiles
              let db1 : DB := ⟨db.videos, pr.2⟩
              match save_videosE env videos db1.videos with
              | .error e => .error (e, db1)
              | .ok (saved_count, videos1) =>
                let db2 : DB := ⟨videos1, db1.profiles⟩
                let latest := get_latest_video_date db2.videos username
                .ok (⟨username, saved_count, latest, pr.1,
                  Option.none, some true⟩, db2)

/-- `TikTokService.scrape_user_videos` (tiktok.py lines 370–434): the body
with its top-level `except` (lines 425–434) turning any raised exception
into a structured failure result — the public operation itself never
raises. -/
def scrape_user_videos (env : Env) (db : DB) (username : String) :
    ScrapeVideosResult × DB :=
  match scrape_user_videos_body env db username with
  | .ok r => r
  | .error (e, db') => (⟨username, 0, Option.none, false, some e, some false⟩, db')

/-- The result dict of `scrape_user_profile` (always carries `success`). -/
structure ScrapeProfileResult where
  username : String
  profile_data : Option ProfileData
  profile_updated : Bool
  error : Option String
  success : Bool
deriving DecidableEq

/-- The `try` body of `scrape_user_profile` (tiktok.py lines 448–513):
normalize the username, submit the profile-scraper job, await it, fetch
the dataset; an empty dataset or an unparseable first item yields a
structured failure, otherwise the profile is upserted. (Lines 467 and 474
read `run.get(...)`, so a missing key flows on as `None` rather than
raising.) -/
def scrape_user_profile_body (env : Env) (db : DB) (username : String) :
    Except (String × DB) (ScrapeProfileResult × DB) :=
  match env.submitProfileJob (formatUsername username) with
  | .error e => .error (e, db)
  | .ok run =>
    match pyGet run "id" with
    | .error e => .error (e, db)
    | .ok run_id =>
      match env.waitRun run_id with
      | .error e => .error (e, db)
      | .ok _ =>
        match pyGet run "defaultDatasetId" with
        | .error e => .error (e, db)
        | .ok dataset_id =>
          match env.fetchItems dataset_id with
          | .error e => .error (e, db)
          | .ok items =>
            match items with
            | [] => .ok (⟨username, Option.none, false,
                some "No profile data found for this user", false⟩, db)
            | item0 :: _ =>
              match parse_profile_data item0 with
              | Option.none => .ok (⟨username, Option.none, false,
                  some "Could not parse profile data", false⟩, db)
              | some pd =>
                let sp := save_profile env pd db.profiles
                .ok (⟨username, some pd, sp.1, Option.none, true⟩,
                  ⟨db.videos, sp.2⟩)

/-- `TikTokService.scrape_user_profile` (tiktok.py lines 436–522): the
body with its top-level `except` (lines 514–522) turning any raised
exception into a structured failure result. -/
def scrape_user_profile (env : Env) (db : DB) (username : String) :
    ScrapeProfileResult × DB :=
  match scrape_user_profile_body env db username with
  | .ok r => r
  | .error (e, db') => (⟨username, Option.none, false, some e, false⟩, db')

end TikTok

/-! ## Instagram service (src/services/instagram.py) -/

namespace Instagram

/-- A parsed Instagram profile, the shape
`InstagramService.parse_profile_data` produces (instagram.py lines
89–100): no integer coercion is applied, only the two flags are computed
as 0/1. -/
structure ProfileData where
  id : PyVal
  username : PyVal
  full_name : PyVal
  biography : PyVal
  followers_count : PyVal
  following_count : PyVal
  posts_count : PyVal
  avatar_url : PyVal
  is_verified : Int
  is_private : Int
deriving DecidableEq

/-- The body of `parse_profile_data` before its `except` (instagram.py
lines 85–100). -/
def parseProfileBody (v : PyVal) : Except String (Option ProfileData) :=
  if truthy v = false then .ok Option.none
  else
    (pyGet v "id").bind fun pid =>
    (pyGet v "username").bind fun username =>
    (pyGet v "fullName").bind fun full_name =>
    (pyGet v "biography").bind fun biography =>
    (pyGetD v "followersCount" (.int 0)).bind fun followers_count =>
    (pyGetD v "followsCount" (.int 0)).bind fun following_count =>
    (pyGetD v "postsCount" (.int 0)).bind fun posts_count =>
    (pyGet v "profilePicUrl").bind fun avatar_url =>
    (pyGet v "verified").bind fun verifiedV =>
    (pyGet v "private").bind fun privateV =>
    .ok (some ⟨pid, username, full_name, biography, followers_count,
      following_count, posts_count, avatar_url,
      if truthy verifiedV then 1 else 0,
      if truthy privateV then 1 else 0⟩)

/-- `InstagramService.parse_profile_data` (instagram.py lines 75–103):
the body with every exception caught and turned into `None`. -/
def parse_profile_data (v : PyVal) : Option ProfileData :=
  match parseProfileBody v with
  | .ok r => r
  | .error _ => Option.none

/-- An `instagram_profiles` row: the ten fields `save_profile` writes
(`setattr` runs for every key of the parsed dict, including `id`), plus
the system-managed creation timestamp (0 on a fresh insert, preserved on
update). -/
structure ProfileRow where
  id : PyVal
  username : PyVal
  full_name : PyVal
  biography : PyVal
  followers_count : PyVal
  following_count : PyVal
  posts_count : PyVal
  avatar_url : PyVal
  is_verified : Int
  is_private : Int
  created_at : Int
deriving DecidableEq

/-- A fresh `InstagramProfile(**profile_data)` insert (instagram.py lines
184–186). -/
def newProfileRow (pd : ProfileData) : ProfileRow :=
  ⟨pd.id, pd.username, pd.full_name, pd.biography, pd.followers_count,
    pd.following_count, pd.posts_count, pd.avatar_url, pd.is_verified,
    pd.is_private, 0⟩

/-- The update loop of instagram.py lines 181–182: `setattr` of every key
of the parsed dict onto the existing row. -/
def overwriteProfile (pd : ProfileData) (r : ProfileRow) : ProfileRow :=
  ⟨pd.id, pd.username, pd.full_name, pd.biography, pd.followers_count,
    pd.following_count, pd.posts_count, pd.avatar_url, pd.is_verified,
    pd.is_private, r.created_at⟩

/-- `save_profile`'s query-then-write keyed on `username` (instagram.py
lines 175–186): overwrite the first matching row in place, else append. -/
def upsertProfile (pd : ProfileData) : List ProfileRow → List ProfileRow
  | [] => [newProfileRow pd]
  | r :: rs =>
    if r.username = pd.username then overwriteProfile pd r :: rs
    else r :: upsertProfile pd rs

/-- `InstagramService.save_profile` (instagram.py lines 160–193): upsert
then commit; a raised commit failure is rolled back and reported as
`False`. (The `if not profile_data` guard cannot fire for parsed data,
which always carries ten keys.) -/
def save_profile (commit : Except String Unit) (pd : ProfileData)
    (rows : List ProfileRow) : Bool × List ProfileRow :=
  match commit with
  | .ok _ => (true, upsertProfile pd rows)
  | .error _ => (false, rows)

/-- A parsed Instagram post (the dict of instagram.py lines 142–152),
which is also the `instagram_posts` row shape persisted: `save_posts`
filters incoming keys to exactly this field set, so the filter is the
identity on parsed posts. The engagement counts are not coerced and stay
`PyVal`. -/
structure PostData where
  id : PyVal
  profile_id : PyVal
  shortcode : PyVal
  caption : PyVal
  likes : PyVal
  comments : PyVal
  image_url : PyVal
  post_url : PyVal
  timestamp : Option Int
deriving DecidableEq

/-- The carousel-children extraction of instagram.py lines 123–130. The
result is built and then discarded (the parsed post dict does not include
it), but a malformed `childPosts` entry still raises and fails the whole
`parse_posts_data` call. -/
def extractChildren : PyVal → Except String (List (PyVal × PyVal × PyVal))
  | .list cs =>
    mapMExcept (fun child => do
      let t ← pyGet child "type"
      let du ← pyGet child "displayUrl"
      let vu ← pyGet child "videoUrl"
      pure (t, du, vu)) cs.toList
  | _ => .error "TypeError"

/-- Parsing of one post (the loop body of instagram.py lines 121–153):
children block, timestamp normalization (`None` stays `None`), then the
field extraction of the parsed-post dict in literal order. -/
def parsePost (localOff : Int) (profile_data post : PyVal) :
    Except String PostData := do
  let childPostsVal ← pyGet post "childPosts"
  if truthy childPostsVal then do
    let cpv ← pyIndex post "childPosts"
    let _ ← extractChildren cpv
    pure ()
  let tsVal ← pyGet post "timestamp"
  let timestamp ← (if truthy tsVal then do
      let s ← asStr tsVal
      let w ← igPostTimestamp localOff s
      pure (some w)
    else pure Option.none)
  let pid ← pyGet post "id"
  let profile_id ← pyGet profile_data "id"
  let shortcode ← pyGet post "shortCode"
  let caption ← pyGet post "caption"
  let likes ← pyGetD post "likesCount" (.int 0)
  let comments ← pyGetD post "commentsCount" (.int 0)
  let image_url ← pyGet post "displayUrl"
  let post_url ← pyGet post "url"
  pure ⟨pid, profile_id, shortcode, caption, likes, comments, image_url,
    post_url, timestamp⟩

/-- The body of `parse_posts_data` before its `except` (instagram.py
lines 115–155): `None` when `latestPosts` is absent or falsy, else every
post parsed in order (any raising post fails the whole call). -/
def parsePostsBody (localOff : Int) (profile_data : PyVal) :
    Except String (Option (List PostData)) :=
  (pyGetD profile_data "latestPosts" (.mkList [])).bind fun posts =>
    if truthy posts = false then .ok Option.none
    else
      match posts with
      | .list ps => (mapMExcept (parsePost localOff profile_data) ps.toList).map some
      | _ => .error "TypeError"

/-- `InstagramService.parse_posts_data` (instagram.py lines 105–158): the
body with exceptions caught to `None`. `localOff` is the system-local UTC
offset that `datetime.astimezone` consults for naive timestamps. -/
def parse_posts_data (localOff : Int) (profile_data : PyVal) :
    Option (List PostData) :=
  match parsePostsBody localOff profile_data with
  | .ok r => r
  | .error _ => Option.none

/-- One transactional `add_all` + `commit` into `instagram_posts`
(database.py lines 86–104): the store enforces primary-key uniqueness on
`id` and a unique constraint on `shortcode`; any violation raises
`IntegrityError`, failing the whole transaction (rows with `id = None`
would take a generated uuid; not exercised by the claims). -/
def insertPosts (store : List PostData) : List PostData → Except String (List PostData)
  | [] => .ok store
  | p :: ps =>
    if p.id ∈ store.map (·.id) ∨ p.shortcode ∈ store.map (·.shortcode) then
      .error "IntegrityError: duplicate key value violates unique constraint"
    else insertPosts (store ++ [p]) ps

/-- `InstagramService.save_posts` (instagram.py lines 195–243): filter
each post's keys to the model field set (the identity here), batch-query
the stored ids occurring in the batch, drop the posts whose id is already
stored, insert the rest in one transaction; an insert failure rolls back
(the returned error leaves the store unchanged) and re-raises. The
existence check is keyed on `id`, not on the `shortcode` natural key. -/
def save_posts (posts_data : List PostData) (store : List PostData) :
    Except String (Nat × List PostData) :=
  if posts_data.isEmpty then .ok (0, store)
  else
    let posts := posts_data
    let post_ids := posts.map (·.id)
    let existing_ids := (store.map (·.id)).filter (fun i => i ∈ post_ids)
    let new_posts := posts.filter (fun p => ¬ p.id ∈ existing_ids)
    if new_posts.isEmpty then .ok (0, store)
    else (insertPosts store new_posts).map (fun s => (new_posts.length, s))

/-- The Instagram persistence state: the `instagram_profiles` and
`instagram_posts` tables. -/
structure DB where
  profiles : List ProfileRow
  posts : List PostData
deriving DecidableEq

/-- Outcomes of `InstagramService`'s collaborators for one scrape call
(`ApifyService` job submission given the formatted username, polling,
dataset fetch, profile commit) plus the system-local UTC offset consulted
for naive timestamps. -/
structure Env where
  runActor : String → Except String PyVal
  waitRun : PyVal → Except String Unit
  fetchItems : PyVal → Except String (List PyVal)
  commitProfile : Except String Unit
  localOff : Int

/-- `ApifyService.run_actor` (apify.py lines 16–37): submit the job,
re-raising any failure as `Apify API error: ...`. -/
def run_actor (env : Env) (u : String) : Except String PyVal :=
  match env.runActor u with
  | .ok run => .ok run
  | .error e => .error ("Apify API error: " ++ e)

/-- The result dict of a successful `scrape_profile` (instagram.py lines
65–69). -/
structure ScrapeResult where
  profile_saved : Bool
  posts_saved : Nat
  run_id : PyVal
deriving DecidableEq

/-- `InstagramService.scrape_profile` (instagram.py lines 18–73). Unlike
the TikTok entry points, its `except` clause logs and re-raises (lines
71–73), so the operation is `Except`-valued: a collaborator failure (or
the explicit `raise` on an empty result set, line 51) escapes to the
caller. An `.error` carries the message and the database state reached. -/
def scrape_profile (env : Env) (db : DB) (username : String) :
    Except (String × DB) (ScrapeResult × DB) :=
  match run_actor env (formatUsername username) with
  | .error e => .error (e, db)
  | .ok run =>
    match pyIndex run "id" with
    | .error e => .error (e, db)
    | .ok run_id =>
      match env.waitRun run_id with
      | .error e => .error (e, db)
      | .ok _ =>
        match pyIndex run "defaultDatasetId" with
        | .error e => .error (e, db)
        | .ok dataset_id =>
          match env.fetchItems dataset_id with
          | .error e => .error (e, db)
          | .ok items =>
            match items with
            | [] => .error ("No results returned from Apify", db)
            | item0 :: _ =>
              let sp :=
                match parse_profile_data item0 with
                | some pd => save_profile env.commitProfile pd db.profiles
                | Option.none => (false, db.profiles)
              let db1 : DB := ⟨sp.2, db.posts⟩
              match parse_posts_data env.localOff item0 with
              | some posts_data =>
                if posts_data.isEmpty then .ok (⟨sp.1, 0, run_id⟩, db1)
                else
                  match save_posts posts_data db1.posts with
                  | .error e => .error (e, db1)
                  | .ok (posts_saved, posts1) =>
                    .ok (⟨sp.1, posts_saved, run_id⟩, ⟨sp.2, posts1⟩)
              | Option.none => .ok (⟨sp.1, 0, run_id⟩, db1)

end Instagram

/-- The spec's wording of the username normalization, for comparison with
the implemented `formatUsername`: remove exactly one leading `"@"` and
leave the rest of the string unchanged. -/
def stripLeadingAtSpec (u : String) : String :=
  match u.data with
  | '@' :: rest => ⟨rest⟩
  | _ => u

end CreatorCompass

namespace CreatorCompass

/-! ## Helper lemmas -/

/-- The first element surviving `dropWhile (· = c)` is not `c`. -/
lemma head?_dropWhile_ne (c : Char) (l : List Char) :
    (l.dropWhile (· = c)).head? ≠ some c := by
  induction l with
  | nil => simp
  | cons x xs ih =>
    by_cases h : x = c
    · simpa [List.dropWhile_cons, h] using ih
    · simp [List.dropWhile_cons, h]

/-- A `takeWhile (· = c)` prefix is a replicate of `c`. -/
lemma takeWhile_eq_replicate_aux (c : Char) (l : List Char) :
    l.takeWhile (· = c) = List.replicate (l.takeWhile (· = c)).length c := by
  refine List.eq_replicate_length.mpr (fun b hb => ?_)
  have := List.mem_takeWhile_imp (p := fun x => decide (x = c)) hb
  exact of_decide_eq_true this

/-- Splitting off both maximal `c`-runs: `l` is the stripped core framed
by its leading and trailing `takeWhile` runs. -/
lemma strip_decomp (c : Char) (l : List Char) :
    l.dropWhile (· = c)
      = ((l.dropWhile (· = c)).reverse.dropWhile (· = c)).reverse
        ++ ((l.dropWhile (· = c)).reverse.takeWhile (· = c)).reverse := by
  conv_lhs => rw [← List.reverse_reverse (l.dropWhile (· = c))]
  conv_lhs =>
    rw [← List.takeWhile_append_dropWhile
      (p := (· = c)) (l := (l.dropWhile (· = c)).reverse)]
  rw [List.reverse_append]

/-! ## C8: username normalization -/

/-- C8 (refuting the claim as stated): on `"user@"` the implemented
normalization `strip('@')` also removes the trailing `"@"`, while the
spec's "remove exactly a leading @" would leave it in place. -/
theorem C8_counterexample :
    formatUsername "user@" = "user"
      ∧ stripLeadingAtSpec "user@" = "user@"
      ∧ formatUsername "user@" ≠ stripLeadingAtSpec "user@" :=
  ⟨by decide, by decide, by decide⟩

/-- C8 (corrected): the orchestrators' username normalization
`username.strip('@')` removes the maximal leading run and the maximal
trailing run of `"@"` characters and nothing else: the input splits as
`"@"^n ++ result ++ "@"^m`, and the result neither starts nor ends with
`"@"` (so any `"@"` other than leading or trailing is preserved). -/
theorem C8_username_normalization :
    ∀ u : String,
      (∃ n m, u.data = List.replicate n '@' ++ (formatUsername u).data
        ++ List.replicate m '@')
      ∧ (formatUsername u).data.head? ≠ some '@'
      ∧ (formatUsername u).data.getLast? ≠ some '@' := by
  intro u
  have hdata : (formatUsername u).data
      = ((u.data.dropWhile (· = '@')).reverse.dropWhile (· = '@')).reverse := rfl
  have h1 : u.data.takeWhile (· = '@') ++ u.data.dropWhile (· = '@') = u.data :=
    List.takeWhile_append_dropWhile (p := (· = '@')) (l := u.data)
  have h2 := strip_decomp '@' u.data
  refine ⟨⟨(u.data.takeWhile (· = '@')).length,
      ((u.data.dropWhile (· = '@')).reverse.takeWhile (· = '@')).length, ?_⟩, ?_, ?_⟩
  · have h4 : ((u.data.dropWhile (· = '@')).reverse.takeWhile (· = '@')).reverse
        = List.replicate
            ((u.data.dropWhile (· = '@')).reverse.takeWhile (· = '@')).length '@' := by
      conv_lhs =>
        rw [takeWhile_eq_replicate_aux '@' (u.data.dropWhile (· = '@')).reverse]
      rw [List.reverse_replicate]
    rw [hdata, ← takeWhile_eq_replicate_aux '@' u.data, ← h4, List.append_assoc,
      ← h2, h1]
  · rw [hdata]
    cases hr : ((u.data.dropWhile (· = '@')).reverse.dropWhile (· = '@')).reverse with
    | nil => simp
    | cons a as =>
      have hhead : (u.data.dropWhile (· = '@')).head? = some a := by
        rw [h2, hr]; simp
      have hne := head?_dropWhile_ne '@' u.data
      rw [hhead] at hne
      simp only [List.head?_cons, ne_eq, Option.some.injEq]
      intro ha
      exact hne (by rw [ha])
  · rw [hdata, List.getLast?_reverse]
    exact head?_dropWhile_ne '@' (u.data.dropWhile (· = '@')).reverse

end CreatorCompass

namespace CreatorCompass

/-! ## C1: negative engagement counters -/

namespace TikTok

/-- A well-formed sample record whose only anomaly is a negative
`playCount`: every required field is present, the counters the source
validates are 0 by default. -/
def negViewsRec : PyVal := .mkDict [
  ("authorMeta", .mkDict [("name", .str "alice")]),
  ("createTimeISO", .str "2024-03-01T12:00:00Z"),
  ("webVideoUrl", .str "http://v/1"),
  ("playCount", .int (-1))]

/-- The entity `parse_video_data` produces for `negViewsRec`: its `views`
counter is negative. -/
def negViewsParsed : VideoData :=
  ⟨.str "alice", .str "", [], 0, 0, 0, -1, mkWallSeconds 2024 3 1 12 0 0,
    .str "", .str "", .str "http://v/1"⟩

end TikTok

/-- C1 (refuting the claim as stated): a record with `playCount = -1`
is not rejected — `parse_video_data` returns it with `views = -1`, and
`save_videos` hands that entity to persistence (inserts it and reports
one saved item). -/
theorem C1_counterexample :
    TikTok.parse_video_data TikTok.negViewsRec = .ok TikTok.negViewsParsed
      ∧ TikTok.negViewsParsed.views = -1
      ∧ TikTok.save_videos [TikTok.negViewsRec] [] = (1, [TikTok.negViewsParsed]) :=
  ⟨by decide, by decide, by decide⟩

/-- C1 (corrected): the normalization rejects a record whose coerced
`likes`, `comments` or `shares` is negative — every record that
`parse_video_data` accepts has those three counters non-negative. The
`views` counter is not covered by the check (tiktok.py line 179). -/
theorem C1_negative_counter_rejection :
    ∀ v d, TikTok.parse_video_data v = .ok d →
      0 ≤ d.likes ∧ 0 ≤ d.comments ∧ 0 ≤ d.shares := by
  intro v d h
  unfold TikTok.parse_video_data at h
  cases hb : TikTok.buildVideoData v with
  | error e => rw [hb] at h; exact absurd h (by simp [Except.bind])
  | ok d' =>
    rw [hb] at h
    simp only [Except.bind] at h
    unfold TikTok.validateCounters at h
    by_cases hc : d'.likes < 0 || d'.comments < 0 || d'.shares < 0
    · rw [if_pos hc] at h; cases h
    · rw [if_neg hc] at h
      cases h
      simp only [Bool.or_eq_true, decide_eq_true_eq, not_or] at hc
      omega

/-- Witness for C1: the corrected theorem applied to a concrete in-range
record. -/
theorem C1_negative_counter_rejection_witness :
    TikTok.parse_video_data TikTok.negViewsRec = .ok TikTok.negViewsParsed
      ∧ (0 ≤ TikTok.negViewsParsed.likes ∧ 0 ≤ TikTok.negViewsParsed.comments
        ∧ 0 ≤ TikTok.negViewsParsed.shares) :=
  ⟨by decide, C1_negative_counter_rejection TikTok.negViewsRec TikTok.negViewsParsed (by decide)⟩

end CreatorCompass

namespace CreatorCompass

/-! ## C10: totality of TikTok parse_profile_data -/

/-- C10 (confirmed): `parse_profile_data` is total with an `Option`
result: for every raw record it either returns `None` (missing/falsy
`authorMeta`, falsy username, or any raising extraction step — the
`except` clause maps every internal exception to `None`) or a profile
whose username is populated (truthy); no exception reaches the caller. -/
theorem C10_parse_profile_data_total :
    ∀ v, TikTok.parse_profile_data v = Option.none
      ∨ ∃ p, TikTok.parse_profile_data v = some p ∧ truthy p.username = true := by
  intro v
  cases hb : TikTok.parseProfileBody v with
  | error e =>
    left
    unfold TikTok.parse_profile_data
    rw [hb]
  | ok r =>
    have heq : TikTok.parse_profile_data v = r := by
      unfold TikTok.parse_profile_data
      rw [hb]
    unfold TikTok.parseProfileBody at hb
    cases hg : pyGet v "authorMeta" with
    | error e =>
      rw [hg] at hb
      exact absurd hb (by simp [Except.bind])
    | ok am =>
      rw [hg] at hb
      simp only [Except.bind] at hb
      by_cases ht : truthy am = false
      · rw [if_pos ht] at hb
        cases hb
        exact Or.inl heq
      · rw [if_neg ht] at hb
        cases he : TikTok.extractProfileFields am with
        | error e =>
          rw [he] at hb
          exact absurd hb (by simp)
        | ok p =>
          rw [he] at hb
          simp only [Except.bind] at hb
          by_cases hu : truthy p.username = false
          · rw [if_pos hu] at hb
            cases hb
            exact Or.inl heq
          · rw [if_neg hu] at hb
            cases hb
            exact Or.inr ⟨p, heq, by simpa using hu⟩

/-! ## C7: profile upsert is a full replace -/

/-- When no stored row carries the username, the upsert appends a fresh
row and touches nothing else. -/
lemma upsertProfile_not_found (pd : TikTok.ProfileData) (s : List TikTok.ProfileRow)
    (h : ∀ r ∈ s, r.username ≠ pd.username) :
    TikTok.upsertProfile pd s = s ++ [TikTok.newProfileRow pd] := by
  induction s with
  | nil => rfl
  | cons r rs ih =>
    have hr : r.username ≠ pd.username := h r (List.mem_cons_self r rs)
    unfold TikTok.upsertProfile
    rw [if_neg hr]
    rw [ih (fun x hx => h x (List.mem_cons_of_mem r hx))]
    rfl

/-- The upsert overwrites the first matching row in place and leaves the
frame (every other row) unchanged. -/
lemma upsertProfile_found (pd : TikTok.ProfileData) (s1 : List TikTok.ProfileRow)
    (r : TikTok.ProfileRow) (s2 : List TikTok.ProfileRow)
    (h1 : ∀ r' ∈ s1, r'.username ≠ pd.username) (hr : r.username = pd.username) :
    TikTok.upsertProfile pd (s1 ++ r :: s2)
      = s1 ++ TikTok.overwriteProfile pd r :: s2 := by
  induction s1 with
  | nil =>
    simp only [List.nil_append]
    unfold TikTok.upsertProfile
    rw [if_pos hr]
  | cons x xs ih =>
    have hx : x.username ≠ pd.username := h1 x (List.mem_cons_self x xs)
    simp only [List.cons_append]
    unfold TikTok.upsertProfile
    rw [if_neg hx, ih (fun y hy => h1 y (List.mem_cons_of_mem x hy))]

/-- The Instagram analogue of `upsertProfile_not_found`: an unseen
username appends a fresh row and touches nothing else. -/
lemma igUpsertProfile_not_found (pd : Instagram.ProfileData)
    (s : List Instagram.ProfileRow)
    (h : ∀ r ∈ s, r.username ≠ pd.username) :
    Instagram.upsertProfile pd s = s ++ [Instagram.newProfileRow pd] := by
  induction s with
  | nil => rfl
  | cons r rs ih =>
    have hr : r.username ≠ pd.username := h r (List.mem_cons_self r rs)
    unfold Instagram.upsertProfile
    rw [if_neg hr]
    rw [ih (fun x hx => h x (List.mem_cons_of_mem r hx))]
    rfl

/-- The Instagram analogue of `upsertProfile_found`: the first
username-matching row is overwritten in place, the frame unchanged. -/
lemma igUpsertProfile_found (pd : Instagram.ProfileData)
    (s1 : List Instagram.ProfileRow) (r : Instagram.ProfileRow)
    (s2 : List Instagram.ProfileRow)
    (h1 : ∀ r' ∈ s1, r'.username ≠ pd.username) (hr : r.username = pd.username) :
    Instagram.upsertProfile pd (s1 ++ r :: s2)
      = s1 ++ Instagram.overwriteProfile pd r :: s2 := by
  induction s1 with
  | nil =>
    simp only [List.nil_append]
    unfold Instagram.upsertProfile
    rw [if_pos hr]
  | cons x xs ih =>
    have hx : x.username ≠ pd.username := h1 x (List.mem_cons_self x xs)
    simp only [List.cons_append]
    unfold Instagram.upsertProfile
    rw [if_neg hx, ih (fun y hy => h1 y (List.mem_cons_of_mem x hy))]

namespace Instagram

/-- A stored Instagram profile row: surrogate primary key `"old-id"`,
username `"alice"`, older field values. -/
def igOldRow : ProfileRow :=
  ⟨.str "old-id", .str "alice", .str "", .str "", .int 1, .int 1, .int 1,
    .str "", 0, 0, 7⟩

/-- A newly parsed Instagram profile for the same username `"alice"` but
carrying a different raw `id`, `"new-id"`. -/
def igNewPd : ProfileData :=
  ⟨.str "new-id", .str "alice", .str "Alice", .str "bio", .int 2, .int 2,
    .int 2, .str "http://av", 1, 0⟩

end Instagram

/-- C7 (refuting the claim as stated): in the Instagram service the
primary key of `instagram_profiles` is the surrogate `id` column, not
`username`, and the `setattr` loop overwrites it with the newest
payload's value — upserting `"alice"` with raw id `"new-id"` over the
stored row `"old-id"` changes the row's primary key in place (only the
`username` natural key is preserved). -/
theorem C7_counterexample :
    (Instagram.save_profile (.ok ()) Instagram.igNewPd [Instagram.igOldRow]).2
      = [Instagram.overwriteProfile Instagram.igNewPd Instagram.igOldRow]
    ∧ Instagram.igOldRow.id = .str "old-id"
    ∧ (Instagram.overwriteProfile Instagram.igNewPd Instagram.igOldRow).id
      = .str "new-id"
    ∧ (Instagram.overwriteProfile Instagram.igNewPd Instagram.igOldRow).id
      ≠ Instagram.igOldRow.id
    ∧ (Instagram.overwriteProfile Instagram.igNewPd Instagram.igOldRow).username
      = Instagram.igOldRow.username :=
  ⟨by decide, by decide, by decide, by decide, by decide⟩

/-- C7 (corrected): with a succeeding commit, both services' `save_profile`
report `True`; on an unseen username they append exactly one new row; on a
stored username they overwrite every scalar field of the (first)
username-matching row with the newest parsed value — a full replace, not a
merge — leaving the system-managed `created_at` and every other row
untouched. The `username` key of the updated row is unchanged: in the
TikTok service that is the primary key, so row identity is preserved; in
the Instagram service the primary key is the surrogate `id` column, which
is itself overwritten with the newest payload's value (see the
counterexample), so only the username natural key survives there. -/
theorem C7_profile_upsert_full_replace :
    (∀ (env : TikTok.Env) (pd : TikTok.ProfileData) (s : List TikTok.ProfileRow),
      env.commitProfile = .ok () →
      (TikTok.save_profile env pd s).1 = true
      ∧ ((∀ r ∈ s, r.username ≠ pd.username) →
          (TikTok.save_profile env pd s).2 = s ++ [TikTok.newProfileRow pd])
      ∧ (∀ s1 r s2, s = s1 ++ r :: s2 →
          (∀ r' ∈ s1, r'.username ≠ pd.username) → r.username = pd.username →
          (TikTok.save_profile env pd s).2 = s1 ++ TikTok.overwriteProfile pd r :: s2
          ∧ (TikTok.overwriteProfile pd r).username = r.username
          ∧ (TikTok.overwriteProfile pd r).created_at = r.created_at
          ∧ (TikTok.overwriteProfile pd r).verified = pd.verified
          ∧ (TikTok.overwriteProfile pd r).private_account = pd.private_account
          ∧ (TikTok.overwriteProfile pd r).region = pd.region
          ∧ (TikTok.overwriteProfile pd r).following = pd.following
          ∧ (TikTok.overwriteProfile pd r).friends = pd.friends
          ∧ (TikTok.overwriteProfile pd r).fans = pd.fans
          ∧ (TikTok.overwriteProfile pd r).heart = pd.heart
          ∧ (TikTok.overwriteProfile pd r).video = pd.video
          ∧ (TikTok.overwriteProfile pd r).avatar_url = pd.avatar_url
          ∧ (TikTok.overwriteProfile pd r).signature = pd.signature))
    ∧ (∀ (commit : Except String Unit) (pd : Instagram.ProfileData)
        (s : List Instagram.ProfileRow),
      commit = .ok () →
      (Instagram.save_profile commit pd s).1 = true
      ∧ ((∀ r ∈ s, r.username ≠ pd.username) →
          (Instagram.save_profile commit pd s).2 = s ++ [Instagram.newProfileRow pd])
      ∧ (∀ s1 r s2, s = s1 ++ r :: s2 →
          (∀ r' ∈ s1, r'.username ≠ pd.username) → r.username = pd.username →
          (Instagram.save_profile commit pd s).2
            = s1 ++ Instagram.overwriteProfile pd r :: s2
          ∧ (Instagram.overwriteProfile pd r).username = r.username
          ∧ (Instagram.overwriteProfile pd r).created_at = r.created_at
          ∧ (Instagram.overwriteProfile pd r).id = pd.id
          ∧ (Instagram.overwriteProfile pd r).full_name = pd.full_name
          ∧ (Instagram.overwriteProfile pd r).biography = pd.biography
          ∧ (Instagram.overwriteProfile pd r).followers_count = pd.followers_count
          ∧ (Instagram.overwriteProfile pd r).following_count = pd.following_count
          ∧ (Instagram.overwriteProfile pd r).posts_count = pd.posts_count
          ∧ (Instagram.overwriteProfile pd r).avatar_url = pd.avatar_url
          ∧ (Instagram.overwriteProfile pd r).is_verified = pd.is_verified
          ∧ (Instagram.overwriteProfile pd r).is_private = pd.is_private)) := by
  constructor
  · intro env pd s hc
    have hsave : TikTok.save_profile env pd s = (true, TikTok.upsertProfile pd s) := by
      unfold TikTok.save_profile
      rw [hc]
    refine ⟨by rw [hsave], fun h => ?_, fun s1 r s2 hs h1 hr => ?_⟩
    · rw [hsave]
      exact upsertProfile_not_found pd s h
    · subst hs
      refine ⟨?_, hr.symm ▸ rfl, rfl, rfl, rfl, rfl, rfl, rfl, rfl, rfl, rfl, rfl, rfl⟩
      rw [hsave]
      exact upsertProfile_found pd s1 r s2 h1 hr
  · intro commit pd s hc
    have hsave : Instagram.save_profile commit pd s
        = (true, Instagram.upsertProfile pd s) := by
      unfold Instagram.save_profile
      rw [hc]
    refine ⟨by rw [hsave], fun h => ?_, fun s1 r s2 hs h1 hr => ?_⟩
    · rw [hsave]
      exact igUpsertProfile_not_found pd s h
    · subst hs
      refine ⟨?_, hr.symm ▸ rfl, rfl, rfl, rfl, rfl, rfl, rfl, rfl, rfl, rfl, rfl⟩
      rw [hsave]
      exact igUpsertProfile_found pd s1 r s2 h1 hr

namespace TikTok

/-- An environment in which every collaborator call succeeds: the video
job yields a run handle, the dataset holds one well-formed record, and
the database commits go through. -/
def okEnv : Env where
  submitVideoJob := fun _ => .ok (.mkDict [("id", .str "r1"), ("defaultDatasetId", .str "d1")])
  submitProfileJob := fun _ => .ok (.mkDict [("id", .str "r2"), ("defaultDatasetId", .str "d2")])
  waitRun := fun _ => .ok ()
  fetchItems := fun _ => .ok [negViewsRec]
  commitVideos := .ok ()
  commitProfile := .ok ()

/-- A sample parsed profile for the upsert theorems. -/
def samplePd : ProfileData :=
  ⟨.str "alice", 1, 0, .str "US", 10, 2, 3, 4, 5, .str "http://a", .str "bio"⟩

/-- A stored profile row with the same username as `samplePd` but older
field values. -/
def oldRow : ProfileRow :=
  ⟨.str "alice", 0, 0, .str "", 1, 1, 1, 1, 1, .str "", .str "", 42⟩

end TikTok

/-- Witness for C7: both conjuncts of the corrected theorem at concrete
one-row stores whose single row matches the upserted username. -/
theorem C7_profile_upsert_full_replace_witness :
    (TikTok.save_profile TikTok.okEnv TikTok.samplePd [TikTok.oldRow]).1 = true
      ∧ (TikTok.save_profile TikTok.okEnv TikTok.samplePd [TikTok.oldRow]).2
        = [] ++ TikTok.overwriteProfile TikTok.samplePd TikTok.oldRow :: []
      ∧ (TikTok.overwriteProfile TikTok.samplePd TikTok.oldRow).created_at
        = TikTok.oldRow.created_at
      ∧ (Instagram.save_profile (.ok ()) Instagram.igNewPd [Instagram.igOldRow]).1 = true
      ∧ (Instagram.save_profile (.ok ()) Instagram.igNewPd [Instagram.igOldRow]).2
        = [] ++ Instagram.overwriteProfile Instagram.igNewPd Instagram.igOldRow :: []
      ∧ (Instagram.overwriteProfile Instagram.igNewPd Instagram.igOldRow).id
        = Instagram.igNewPd.id := by
  have h := C7_profile_upsert_full_replace
  have h1 := h.1 TikTok.okEnv TikTok.samplePd [TikTok.oldRow] rfl
  have h1f := h1.2.2 [] TikTok.oldRow [] rfl (by simp) (by decide)
  have h2 := h.2 (.ok ()) Instagram.igNewPd [Instagram.igOldRow] rfl
  have h2f := h2.2.2 [] Instagram.igOldRow [] rfl (by simp) (by decide)
  exact ⟨h1.1, h1f.1, h1f.2.2.1, h2.1, h2f.1, h2f.2.2.2.1⟩

end CreatorCompass

namespace CreatorCompass

/-! ## save_videos: dedup machinery (C2, C3, C4, C9) -/

/-- Testing a batch video's url against the batch-restricted query result
(`existing_urls`, the stored urls occurring in the batch) is the same as
testing it against the whole store, because the tested url always occurs
in the batch. -/
lemma new_videos_filter_eq (videos store : List TikTok.VideoData) :
    videos.filter (fun v => ¬ v.video_url ∈
        ((store.map (·.video_url)).filter (fun u => u ∈ videos.map (·.video_url))))
      = videos.filter (fun v => ¬ v.video_url ∈ store.map (·.video_url)) := by
  apply List.filter_congr
  intro v hv
  have hmem : v.video_url ∈ videos.map (·.video_url) := List.mem_map_of_mem _ hv
  by_cases h : v.video_url ∈ store.map (·.video_url)
  · have hiff : v.video_url ∈ ((store.map (·.video_url)).filter
        (fun u => u ∈ videos.map (·.video_url)))
        ↔ v.video_url ∈ store.map (·.video_url) := by
      rw [List.mem_filter]
      exact ⟨fun hx => hx.1, fun hx => ⟨hx, by simpa using hmem⟩⟩
    rw [decide_eq_decide]
    exact not_congr hiff
  · simp [List.mem_filter, h]

/-- Closed form of `save_videos`: it always returns the batch's parsed
videos whose url is not yet stored, appended to the store, together with
their count (the early returns coincide with this form). -/
lemma save_videos_eq (vd : List PyVal) (store : List TikTok.VideoData) :
    TikTok.save_videos vd store
      = (((TikTok.parseOks vd).filter
            (fun v => ¬ v.video_url ∈ store.map (·.video_url))).length,
         store ++ (TikTok.parseOks vd).filter
            (fun v => ¬ v.video_url ∈ store.map (·.video_url))) := by
  cases hv : TikTok.parseOks vd with
  | nil => simp [TikTok.save_videos, hv]
  | cons a as =>
    simp only [TikTok.save_videos, hv]
    rw [show ((a :: as).filter (fun v => ¬ v.video_url ∈
        ((store.map (·.video_url)).filter (fun u => u ∈ (a :: as).map (·.video_url)))))
      = ((a :: as).filter (fun v => ¬ v.video_url ∈ store.map (·.video_url)))
      from new_videos_filter_eq (a :: as) store]
    cases hnew : (a :: as).filter (fun v => ¬ v.video_url ∈ store.map (·.video_url)) with
    | nil => simp [hnew]
    | cons b bs => simp [hnew]

/-- After a `save_videos` call, every successfully parsed url of the batch
is present in the store. -/
lemma mem_urls_after_save (vd : List PyVal) (s : List TikTok.VideoData) :
    ∀ v ∈ TikTok.parseOks vd,
      v.video_url ∈ ((TikTok.save_videos vd s).2).map (·.video_url) := by
  intro v hv
  rw [save_videos_eq, List.map_append, List.mem_append]
  by_cases h : v.video_url ∈ s.map (·.video_url)
  · exact Or.inl h
  · right
    apply List.mem_map_of_mem
    rw [List.mem_filter]
    exact ⟨hv, by simpa using h⟩

/-- A batch whose members all parse has as many parsed videos as raw
records. -/
lemma parseOks_length_of_all_ok (l : List PyVal)
    (h : ∀ r ∈ l, ∃ v, TikTok.parse_video_data r = .ok v) :
    (TikTok.parseOks l).length = l.length := by
  induction l with
  | nil => rfl
  | cons r rs ih =>
    obtain ⟨v, hv⟩ := h r (List.mem_cons_self r rs)
    have hih := ih (fun x hx => h x (List.mem_cons_of_mem r hx))
    simp only [TikTok.parseOks] at hih ⊢
    rw [List.filterMap_cons]
    simp only [hv, Except.toOption]
    rw [List.length_cons, List.length_cons]
    exact congrArg (fun n => n + 1) hih

end CreatorCompass

namespace CreatorCompass

namespace TikTok

/-- A well-formed raw record with video url `http://v/A`. -/
def recA : PyVal := .mkDict [
  ("authorMeta", .mkDict [("name", .str "alice")]),
  ("text", .str "a"),
  ("createTimeISO", .str "2024-03-01T10:00:00Z"),
  ("webVideoUrl", .str "http://v/A")]

/-- The entity `recA` parses to. -/
def vidA : VideoData :=
  ⟨.str "alice", .str "a", [], 0, 0, 0, 0, mkWallSeconds 2024 3 1 10 0 0,
    .str "", .str "", .str "http://v/A"⟩

/-- A well-formed raw record with video url `http://v/C`. -/
def recC : PyVal := .mkDict [
  ("authorMeta", .mkDict [("name", .str "alice")]),
  ("text", .str "c"),
  ("createTimeISO", .str "2024-03-02T10:00:00Z"),
  ("webVideoUrl", .str "http://v/C")]

/-- The entity `recC` parses to. -/
def vidC : VideoData :=
  ⟨.str "alice", .str "c", [], 0, 0, 0, 0, mkWallSeconds 2024 3 2 10 0 0,
    .str "", .str "", .str "http://v/C"⟩

/-- A raw record missing its required `createTimeISO` timestamp. -/
def badRec : PyVal := .mkDict [
  ("authorMeta", .mkDict [("name", .str "alice")]),
  ("text", .str "b"),
  ("webVideoUrl", .str "http://v/B")]

end TikTok

/-! ## C3: idempotence and dedup across calls -/

/-- C3 (confirmed): re-ingesting a batch right after `save_videos`
persisted it inserts nothing, returns 0 and leaves the store unchanged;
and when the store already holds url A but not url C, a batch of one
A-record and one C-record inserts exactly the C entity and returns 1. -/
theorem C3_save_videos_idempotent :
    ∀ (vd : List PyVal) (s : List TikTok.VideoData),
      TikTok.save_videos vd (TikTok.save_videos vd s).2
        = (0, (TikTok.save_videos vd s).2)
      ∧ (∀ ra rc va vc, TikTok.parse_video_data ra = .ok va →
          TikTok.parse_video_data rc = .ok vc →
          va.video_url ∈ s.map (·.video_url) →
          ¬ vc.video_url ∈ s.map (·.video_url) →
          TikTok.save_videos [ra, rc] s = (1, s ++ [vc])) := by
  intro vd s
  constructor
  · rw [save_videos_eq vd (TikTok.save_videos vd s).2]
    have hnil : (TikTok.parseOks vd).filter
        (fun v => ¬ v.video_url ∈ ((TikTok.save_videos vd s).2).map (·.video_url))
        = [] := by
      rw [List.filter_eq_nil_iff]
      intro v hv
      have := mem_urls_after_save vd s v hv
      simp [this]
    rw [hnil]
    simp
  · intro ra rc va vc hra hrc hin hout
    have hp : TikTok.parseOks [ra, rc] = [va, vc] := by
      simp [TikTok.parseOks, List.filterMap_cons, hra, hrc, Except.toOption]
    rw [save_videos_eq, hp]
    have hpa : (decide (¬ va.video_url ∈ s.map (·.video_url))) = false := by
      simpa using hin
    have hpc : (decide (¬ vc.video_url ∈ s.map (·.video_url))) = true := by
      simpa using hout
    have hf : [va, vc].filter (fun v => ¬ v.video_url ∈ s.map (·.video_url)) = [vc] := by
      rw [List.filter_cons, List.filter_cons, List.filter_nil, hpa, hpc]
      simp
    rw [hf]
    rfl

/-- Witness for C3: both conjuncts at a concrete store `{A}` and batch
`{A, C}`. -/
theorem C3_save_videos_idempotent_witness :
    TikTok.save_videos [TikTok.recA, TikTok.recC]
        (TikTok.save_videos [TikTok.recA, TikTok.recC] [TikTok.vidA]).2
      = (0, (TikTok.save_videos [TikTok.recA, TikTok.recC] [TikTok.vidA]).2)
    ∧ TikTok.save_videos [TikTok.recA, TikTok.recC] [TikTok.vidA]
      = (1, [TikTok.vidA] ++ [TikTok.vidC]) := by
  have h := C3_save_videos_idempotent [TikTok.recA, TikTok.recC] [TikTok.vidA]
  exact ⟨h.1, h.2 TikTok.recA TikTok.recC TikTok.vidA TikTok.vidC
    (by decide) (by decide) (by decide) (by decide)⟩

/-! ## C4: partial-failure isolation -/

/-- C4 (confirmed): in a batch of N records where exactly one fails
normalization and the other N−1 parse to previously-unseen entities,
`save_videos` persists exactly those N−1 entities and returns N−1 — the
malformed record is skipped, never aborting the batch. -/
theorem C4_partial_failure_isolation :
    ∀ (xs : List PyVal) (bad : PyVal) (ys : List PyVal) (s : List TikTok.VideoData),
      (∃ e, TikTok.parse_video_data bad = .error e) →
      (∀ r ∈ xs ++ ys, ∃ v, TikTok.parse_video_data r = .ok v
        ∧ ¬ v.video_url ∈ s.map (·.video_url)) →
      (TikTok.save_videos (xs ++ bad :: ys) s).1 = (xs ++ bad :: ys).length - 1
      ∧ (TikTok.save_videos (xs ++ bad :: ys) s).2 = s ++ TikTok.parseOks (xs ++ ys) := by
  intro xs bad ys s hbad hgood
  obtain ⟨e, he⟩ := hbad
  have hsplit : TikTok.parseOks (xs ++ bad :: ys) = TikTok.parseOks (xs ++ ys) := by
    unfold TikTok.parseOks
    rw [List.filterMap_append, List.filterMap_append, List.filterMap_cons]
    simp [he, Except.toOption]
  have hlen : (TikTok.parseOks (xs ++ ys)).length = (xs ++ ys).length :=
    parseOks_length_of_all_ok (xs ++ ys)
      (fun r hr => (hgood r hr).imp (fun v hv => hv.1))
  have hfilter : (TikTok.parseOks (xs ++ ys)).filter
      (fun v => ¬ v.video_url ∈ s.map (·.video_url)) = TikTok.parseOks (xs ++ ys) := by
    rw [List.filter_eq_self]
    intro v hv
    obtain ⟨r, hr, hparse⟩ := List.mem_filterMap.mp hv
    obtain ⟨v', hv', hnot⟩ := hgood r hr
    have hvv : v' = v := by
      rw [hv'] at hparse
      simpa [Except.toOption] using hparse
    subst hvv
    simpa using hnot
  rw [save_videos_eq, hsplit, hfilter]
  refine ⟨?_, rfl⟩
  simp only [hlen, List.length_append, List.length_cons]
  omega

/-- Witness for C4: a two-record batch whose second record is missing its
timestamp yields one persisted entity and count 1. -/
theorem C4_partial_failure_isolation_witness :
    (TikTok.save_videos [TikTok.recA, TikTok.badRec] []).1
      = [TikTok.recA, TikTok.badRec].length - 1
    ∧ (TikTok.save_videos [TikTok.recA, TikTok.badRec] []).2
      = [] ++ TikTok.parseOks [TikTok.recA] := by
  have h := C4_partial_failure_isolation [TikTok.recA] TikTok.badRec [] []
    ⟨"Missing required field: createTimeISO", by decide⟩
    (fun r hr => by
      have : r = TikTok.recA := by simpa using hr
      exact this ▸ ⟨TikTok.vidA, by decide, by decide⟩)
  simpa using h

/-! ## C9: no in-batch dedup -/

/-- C9 (confirmed): `save_videos` does not deduplicate within a batch:
two records carrying the same not-yet-stored url are both inserted and
both counted; nothing at the store level prevents the duplicate
(`tiktok_videos` has no uniqueness constraint on `video_url`, and the
modelled insert is an unconditional append). -/
theorem C9_no_in_batch_dedup :
    ∀ (r1 r2 : PyVal) (v1 v2 : TikTok.VideoData) (s : List TikTok.VideoData),
      TikTok.parse_video_data r1 = .ok v1 →
      TikTok.parse_video_data r2 = .ok v2 →
      v1.video_url = v2.video_url →
      ¬ v1.video_url ∈ s.map (·.video_url) →
      TikTok.save_videos [r1, r2] s = (2, s ++ [v1, v2]) := by
  intro r1 r2 v1 v2 s h1 h2 hurl hout
  have hp : TikTok.parseOks [r1, r2] = [v1, v2] := by
    simp [TikTok.parseOks, List.filterMap_cons, h1, h2, Except.toOption]
  rw [save_videos_eq, hp]
  have hout2 : ¬ v2.video_url ∈ s.map (·.video_url) := hurl ▸ hout
  have hp1 : (decide (¬ v1.video_url ∈ s.map (·.video_url))) = true := by
    simpa using hout
  have hp2 : (decide (¬ v2.video_url ∈ s.map (·.video_url))) = true := by
    simpa using hout2
  have hf : [v1, v2].filter (fun v => ¬ v.video_url ∈ s.map (·.video_url))
      = [v1, v2] := by
    rw [List.filter_cons, List.filter_cons, List.filter_nil, hp1, hp2]
    simp
  rw [hf]
  rfl

/-- Witness for C9: the same record ingested twice in one batch is stored
twice. -/
theorem C9_no_in_batch_dedup_witness :
    TikTok.save_videos [TikTok.recC, TikTok.recC] []
      = (2, [] ++ [TikTok.vidC, TikTok.vidC]) :=
  C9_no_in_batch_dedup TikTok.recC TikTok.recC TikTok.vidC TikTok.vidC []
    (by decide) (by decide) (by decide) (by decide)

end CreatorCompass

namespace CreatorCompass

/-! ## C2: duplicate handling at the persistence boundary -/

/-- The posts analogue of `new_videos_filter_eq`: testing a batch post's
id against the batch-restricted query result equals testing it against
the whole store. -/
lemma new_posts_filter_eq (posts store : List Instagram.PostData) :
    posts.filter (fun p => ¬ p.id ∈
        ((store.map (·.id)).filter (fun i => i ∈ posts.map (·.id))))
      = posts.filter (fun p => ¬ p.id ∈ store.map (·.id)) := by
  apply List.filter_congr
  intro p hp
  have hmem : p.id ∈ posts.map (·.id) := List.mem_map_of_mem _ hp
  by_cases h : p.id ∈ store.map (·.id)
  · have hiff : p.id ∈ ((store.map (·.id)).filter (fun i => i ∈ posts.map (·.id)))
        ↔ p.id ∈ store.map (·.id) := by
      rw [List.mem_filter]
      exact ⟨fun hx => hx.1, fun hx => ⟨hx, by simpa using hmem⟩⟩
    rw [decide_eq_decide]
    exact not_congr hiff
  · simp [List.mem_filter, h]

/-- A transactional insert of posts whose ids and shortcodes are fresh
(against the store and pairwise) succeeds and appends them in order. -/
lemma insertPosts_ok (new : List Instagram.PostData) :
    ∀ acc, (∀ p ∈ new, ¬ p.id ∈ acc.map (·.id)
        ∧ ¬ p.shortcode ∈ acc.map (·.shortcode)) →
      (new.map (·.id)).Nodup → (new.map (·.shortcode)).Nodup →
      Instagram.insertPosts acc new = .ok (acc ++ new) := by
  induction new with
  | nil => intro acc _ _ _; simp [Instagram.insertPosts]
  | cons p ps ih =>
    intro acc hfresh hid hsc
    have hp := hfresh p (List.mem_cons_self p ps)
    simp only [List.map_cons, List.nodup_cons] at hid hsc
    unfold Instagram.insertPosts
    rw [if_neg (not_or.mpr ⟨hp.1, hp.2⟩)]
    rw [ih (acc ++ [p]) ?_ hid.2 hsc.2]
    · simp
    · intro q hq
      have hqf := hfresh q (List.mem_cons_of_mem p hq)
      constructor
      · rw [List.map_append, List.mem_append]
        rintro (h1 | h2)
        · exact hqf.1 h1
        · have : q.id = p.id := by simpa using h2
          exact hid.1 (this ▸ List.mem_map_of_mem _ hq)
      · rw [List.map_append, List.mem_append]
        rintro (h1 | h2)
        · exact hqf.2 h1
        · have : q.shortcode = p.shortcode := by simpa using h2
          exact hsc.1 (this ▸ List.mem_map_of_mem _ hq)

namespace Instagram

/-- A stored Instagram post with id `"1"` and shortcode `"s"`. -/
def post1 : PostData :=
  ⟨.str "1", .str "p", .str "s", .str "c1", .int 1, .int 0, .str "img1",
    .str "u1", some 0⟩

/-- An incoming post carrying a fresh id `"2"` but the already-stored
shortcode `"s"`. -/
def post2 : PostData :=
  ⟨.str "2", .str "p", .str "s", .str "c2", .int 2, .int 0, .str "img2",
    .str "u2", some 0⟩

/-- An incoming post with fresh id and fresh shortcode. -/
def post3 : PostData :=
  ⟨.str "3", .str "p", .str "t", .str "c3", .int 3, .int 0, .str "img3",
    .str "u3", some 0⟩

end Instagram

/-- C2 (refuting the claim as stated): a post whose `shortcode` is
already stored but whose `id` is fresh is not silently dropped — it
passes the id-keyed existence check and the insert then raises an
integrity error on the shortcode uniqueness constraint. -/
theorem C2_counterexample :
    Instagram.save_posts [Instagram.post2] [Instagram.post1]
      = .error "IntegrityError: duplicate key value violates unique constraint"
    ∧ Instagram.post2.shortcode = Instagram.post1.shortcode
    ∧ Instagram.post2.id ≠ Instagram.post1.id :=
  ⟨by decide, by decide, by decide⟩

/-- C2 (corrected): `save_videos` silently drops exactly the videos whose
`video_url` is already stored and inserts the rest, never erroring (it is
a total function); `save_posts` dedups on `id`, not on the `shortcode`
natural key — when the surviving posts' shortcodes are fresh and the
batch has no internal id/shortcode collision it inserts exactly the posts
with unseen ids, but a stored shortcode under a fresh id raises (see the
counterexample). -/
theorem C2_duplicate_handling :
    (∀ (vd : List PyVal) (s : List TikTok.VideoData),
        TikTok.save_videos vd s
          = (((TikTok.parseOks vd).filter
                (fun v => ¬ v.video_url ∈ s.map (·.video_url))).length,
             s ++ (TikTok.parseOks vd).filter
                (fun v => ¬ v.video_url ∈ s.map (·.video_url))))
    ∧ (∀ (pd : List Instagram.PostData) (s : List Instagram.PostData),
        (∀ p ∈ pd.filter (fun p => ¬ p.id ∈ s.map (·.id)),
            ¬ p.shortcode ∈ s.map (·.shortcode)) →
        ((pd.filter (fun p => ¬ p.id ∈ s.map (·.id))).map (·.id)).Nodup →
        ((pd.filter (fun p => ¬ p.id ∈ s.map (·.id))).map (·.shortcode)).Nodup →
        Instagram.save_posts pd s
          = .ok ((pd.filter (fun p => ¬ p.id ∈ s.map (·.id))).length,
              s ++ pd.filter (fun p => ¬ p.id ∈ s.map (·.id)))) := by
  constructor
  · exact save_videos_eq
  · intro pd s hsc hid hscn
    cases hpd : pd with
    | nil => simp [Instagram.save_posts]
    | cons a as =>
      rw [← hpd]
      have hne : pd.isEmpty = false := by rw [hpd]; rfl
      simp only [Instagram.save_posts, hne, Bool.false_eq_true, if_false]
      rw [show (pd.filter (fun p => ¬ p.id ∈
          ((s.map (·.id)).filter (fun i => i ∈ pd.map (·.id)))))
        = (pd.filter (fun p => ¬ p.id ∈ s.map (·.id)))
        from new_posts_filter_eq pd s]
      cases hnew : pd.filter (fun p => ¬ p.id ∈ s.map (·.id)) with
      | nil => simp [hnew]
      | cons b bs =>
        rw [← hnew]
        have hne2 : (pd.filter (fun p => ¬ p.id ∈ s.map (·.id))).isEmpty = false := by
          rw [hnew]; rfl
        simp only [hne2, Bool.false_eq_true, if_false]
        rw [insertPosts_ok (pd.filter (fun p => ¬ p.id ∈ s.map (·.id))) s ?_ hid hscn]
        · rfl
        · intro p hp
          refine ⟨?_, hsc p hp⟩
          have := (List.mem_filter.mp hp).2
          simpa using this

/-- Witness for C2: the videos conjunct on the `{A}` store with an
`{A, C}` batch, and the posts conjunct inserting a fresh-id, fresh-
shortcode post over a one-post store. -/
theorem C2_duplicate_handling_witness :
    TikTok.save_videos [TikTok.recA, TikTok.recC] [TikTok.vidA]
      = (((TikTok.parseOks [TikTok.recA, TikTok.recC]).filter
            (fun v => ¬ v.video_url ∈ [TikTok.vidA].map (·.video_url))).length,
         [TikTok.vidA] ++ (TikTok.parseOks [TikTok.recA, TikTok.recC]).filter
            (fun v => ¬ v.video_url ∈ [TikTok.vidA].map (·.video_url)))
    ∧ Instagram.save_posts [Instagram.post3] [Instagram.post1]
      = .ok (([Instagram.post3].filter
            (fun p => ¬ p.id ∈ [Instagram.post1].map (·.id))).length,
          [Instagram.post1] ++ [Instagram.post3].filter
            (fun p => ¬ p.id ∈ [Instagram.post1].map (·.id))) := by
  have h := C2_duplicate_handling
  exact ⟨h.1 [TikTok.recA, TikTok.recC] [TikTok.vidA],
    h.2 [Instagram.post3] [Instagram.post1] (by decide) (by decide) (by decide)⟩

end CreatorCompass

namespace CreatorCompass

/-! ## C6: timestamp normalization -/

namespace TikTok

/-- A well-formed raw record whose `createTimeISO` carries a `+02:00`
numeric UTC offset. -/
def offsetRec : PyVal := .mkDict [
  ("authorMeta", .mkDict [("name", .str "alice")]),
  ("text", .str "o"),
  ("createTimeISO", .str "2024-03-01T12:00:00+02:00"),
  ("webVideoUrl", .str "http://v/O")]

/-- The entity `offsetRec` parses to: the stored `publish_date` is the
local wall clock 12:00, not the UTC instant 10:00. -/
def offsetParsed : VideoData :=
  ⟨.str "alice", .str "o", [], 0, 0, 0, 0, mkWallSeconds 2024 3 1 12 0 0,
    .str "", .str "", .str "http://v/O"⟩

end TikTok

/-- C6 (refuting the claim as stated): on a timestamp with a `+02:00`
offset, the TikTok normalizer stores the local wall-clock reading and not
the UTC wall clock of the instant — `replace(tzinfo=None)` strips the
offset without converting (the Instagram normalizer does convert). -/
theorem C6_counterexample :
    TikTok.parse_video_data TikTok.offsetRec = .ok TikTok.offsetParsed
    ∧ fromisoformat "2024-03-01T12:00:00+02:00"
      = .ok ⟨mkWallSeconds 2024 3 1 12 0 0, some 7200⟩
    ∧ TikTok.offsetParsed.publish_date = mkWallSeconds 2024 3 1 12 0 0
    ∧ mkWallSeconds 2024 3 1 12 0 0 ≠ mkWallSeconds 2024 3 1 12 0 0 - 7200
    ∧ igPostTimestamp 0 "2024-03-01T12:00:00+02:00"
      = .ok (mkWallSeconds 2024 3 1 12 0 0 - 7200) :=
  ⟨by decide, by decide, by decide, by decide, by decide⟩

/-- C6 (corrected): for every ISO-8601 timestamp that parses (after the
`"Z"` to `"+00:00"` rewrite) to a timezone-aware reading `wall` with
offset `o`, the Instagram normalizer stores `wall - o`, the UTC wall
clock of the denoted instant, for any system timezone; the TikTok
normalizer stores the unconverted `wall`, which is that UTC wall clock
exactly when the offset is zero (in particular for the literal `"Z"`
suffix). -/
theorem C6_timestamp_normalization :
    ∀ (s : String) (dt : PyDateTime) (o localOff : Int),
      fromisoformat (pyReplace s 'Z' "+00:00") = .ok dt →
      dt.off = some o →
      igPostTimestamp localOff s = .ok (dt.wall - o)
      ∧ tiktokPublishDate s = .ok dt.wall
      ∧ (o = 0 → tiktokPublishDate s = .ok (dt.wall - o)) := by
  intro s dt o localOff hpar hoff
  refine ⟨?_, ?_, fun h0 => ?_⟩
  · unfold igPostTimestamp
    rw [hpar]
    simp only [Except.map]
    unfold astimezoneUtcNaive
    rw [hoff]
  · unfold tiktokPublishDate
    rw [hpar]
    rfl
  · unfold tiktokPublishDate
    rw [hpar, h0, sub_zero]
    rfl

/-- Witness for C6: the corrected theorem at a concrete `"Z"`-suffixed
timestamp (offset zero). -/
theorem C6_timestamp_normalization_witness :
    igPostTimestamp 3600 "2024-03-01T10:00:00Z"
      = .ok (mkWallSeconds 2024 3 1 10 0 0 - 0)
    ∧ tiktokPublishDate "2024-03-01T10:00:00Z" = .ok (mkWallSeconds 2024 3 1 10 0 0) := by
  have h := C6_timestamp_normalization "2024-03-01T10:00:00Z"
    ⟨mkWallSeconds 2024 3 1 10 0 0, some 0⟩ 0 3600 (by decide) rfl
  exact ⟨h.1, h.2.1⟩

end CreatorCompass

namespace CreatorCompass

/-! ## C5: structured results at the orchestrator boundary -/

/-- Every normal return of the `scrape_user_videos` body is either the
success result (`success = true`, no error) or the empty-dataset result
(no `success` key, error set). -/
lemma scrape_videos_body_ok_shape (env : TikTok.Env) (db : TikTok.DB)
    (u : String) (r : TikTok.ScrapeVideosResult × TikTok.DB)
    (h : TikTok.scrape_user_videos_body env db u = .ok r) :
    (r.1.success = some true ∧ r.1.error = Option.none)
    ∨ (r.1.success = Option.none ∧ r.1.error ≠ Option.none) := by
  unfold TikTok.scrape_user_videos_body at h
  repeat' split at h
  all_goals try dsimp only [] at h
  all_goals try repeat' split at h
  all_goals cases h
  all_goals simp

/-- Every normal return of the `scrape_user_profile` body carries an
explicit success flag: `true` with no error, or `false` with an error. -/
lemma scrape_profile_body_ok_shape (env : TikTok.Env) (db : TikTok.DB)
    (u : String) (r : TikTok.ScrapeProfileResult × TikTok.DB)
    (h : TikTok.scrape_user_profile_body env db u = .ok r) :
    (r.1.success = true ∧ r.1.error = Option.none)
    ∨ (r.1.success = false ∧ r.1.error ≠ Option.none) := by
  unfold TikTok.scrape_user_profile_body at h
  repeat' split at h
  all_goals try dsimp only [] at h
  all_goals cases h
  all_goals simp

/-- C5 (corrected): for every collaborator behaviour, the TikTok entry
points return a structured result object and never raise —
`scrape_user_videos` returns either a success result or a result with its
error field set (the empty-dataset result has no `success` key), and
`scrape_user_profile` always pairs `success = true` with no error and
`success = false` with an error; `InstagramService.scrape_profile`,
however, re-raises: a failed job submission escapes to the caller as an
exception. -/
theorem C5_structured_results :
    ∀ (env : TikTok.Env) (db : TikTok.DB) (envI : Instagram.Env)
      (dbI : Instagram.DB) (u : String),
      (((TikTok.scrape_user_videos env db u).1.success = some true
          ∧ (TikTok.scrape_user_videos env db u).1.error = Option.none)
        ∨ (TikTok.scrape_user_videos env db u).1.error ≠ Option.none)
      ∧ (((TikTok.scrape_user_profile env db u).1.success = true
          ∧ (TikTok.scrape_user_profile env db u).1.error = Option.none)
        ∨ ((TikTok.scrape_user_profile env db u).1.success = false
          ∧ (TikTok.scrape_user_profile env db u).1.error ≠ Option.none))
      ∧ (∀ e, envI.runActor (formatUsername u) = .error e →
          Instagram.scrape_profile envI dbI u
            = .error ("Apify API error: " ++ e, dbI)) := by
  intro env db envI dbI u
  refine ⟨?_, ?_, ?_⟩
  · unfold TikTok.scrape_user_videos
    cases hb : TikTok.scrape_user_videos_body env db u with
    | error p => simp
    | ok r =>
      rcases scrape_videos_body_ok_shape env db u r hb with ⟨h1, h2⟩ | ⟨h1, h2⟩
      · exact Or.inl ⟨h1, h2⟩
      · exact Or.inr h2
  · unfold TikTok.scrape_user_profile
    cases hb : TikTok.scrape_user_profile_body env db u with
    | error p => simp
    | ok r =>
      rcases scrape_profile_body_ok_shape env db u r hb with ⟨h1, h2⟩ | ⟨h1, h2⟩
      · exact Or.inl ⟨h1, h2⟩
      · exact Or.inr ⟨h1, h2⟩
  · intro e he
    unfold Instagram.scrape_profile Instagram.run_actor
    rw [he]

namespace Instagram

/-- An Instagram environment whose job submission fails. -/
def failEnv : Env :=
  ⟨fun _ => .error "boom", fun _ => .ok (), fun _ => .ok [], .ok (), 0⟩

/-- An empty Instagram store. -/
def emptyDB : DB := ⟨[], []⟩

end Instagram

/-- C5 (refuting the claim as stated): with a failing job submission,
`InstagramService.scrape_profile` does not return a structured result —
the exception escapes to its caller. -/
theorem C5_counterexample :
    Instagram.scrape_profile Instagram.failEnv Instagram.emptyDB "alice"
      = .error ("Apify API error: boom", Instagram.emptyDB) := by
  rfl

/-- Witness for C5: the corrected theorem's Instagram conjunct at the
concrete failing environment. -/
theorem C5_structured_results_witness :
    Instagram.scrape_profile Instagram.failEnv Instagram.emptyDB "alice"
      = .error ("Apify API error: " ++ "boom", Instagram.emptyDB) :=
  (C5_structured_results TikTok.okEnv ⟨[], []⟩ Instagram.failEnv
    Instagram.emptyDB "alice").2.2 "boom" rfl

end CreatorCompass
